import Mathlib

/-!
Shallow embedding of the core logic of the `tokanic/dasboard` Streamlit
dashboards (`app.py`, `app2.py`, `app3.py`): the fetch adapters over the
exchange client, the PNL analytics of `performance_analytics`, the sample
PNL generator, the trade-history date filter, the open-position price
simulation and the top-position ranking.  Upstream HTTP/exchange calls are
modelled as explicit `Except`-valued oracles; randomness (`random.uniform`,
`np.random.uniform`) is modelled as an explicit stream `ℕ → ℚ` of draws
together with a cursor.  Numeric quantities are rationals.
-/

namespace Dashboard

/-- Error classes an upstream call can fail with: `requests` timeouts /
connection errors, and the 4xx/5xx API conditions
(`BinanceAPIException`, `BinanceRequestException`, `RequestException`). -/
inductive FetchError
  | transientNetworkError
  | authError
  | venueError
  deriving DecidableEq, Repr

/-- `app2.py` `fetch_data`: a single `requests.get` call; on success the
decoded JSON payload is returned, on any `RequestException` the error is
shown with `st.error` and `None` is returned.  The oracle `upstream` gives
the outcome of the `n`-th HTTP call; the second component of the result
counts how many upstream calls the function performed. -/
def fetchData {α : Type} (upstream : ℕ → Except FetchError α) : Option α × ℕ :=
  match upstream 0 with
  | .ok a => (some a, 1)
  | .error _ => (none, 1)

/-- Venue-shaped account data consumed by `fetch_account_summary`
(`futures_account_balance` / `futures_account`). -/
structure RawAccount where
  balance : ℚ
  totalUnrealizedProfit : ℚ
  totalMarginBalance : ℚ
  availableBalance : ℚ
  deriving DecidableEq, Repr

/-- The normalized account summary built by `fetch_account_summary`. -/
structure AccountSummary where
  balance : ℚ
  unrealizedPnl : ℚ
  marginBalance : ℚ
  availableBalance : ℚ
  deriving DecidableEq, Repr

/-- Python `round(x, 2)` on the embedded rationals. -/
def round2 (q : ℚ) : ℚ := (round (q * 100) : ℤ) / 100

/-- `app.py` `fetch_account_summary`: on success the four balances rounded
to two decimals; on any exception an error is shown with `st.error` and a
dictionary with all four fields set to `0` is returned. -/
def fetchAccountSummary (upstream : Except FetchError RawAccount) : AccountSummary :=
  match upstream with
  | .ok a =>
      { balance := round2 a.balance
        unrealizedPnl := round2 a.totalUnrealizedProfit
        marginBalance := round2 a.totalMarginBalance
        availableBalance := round2 a.availableBalance }
  | .error _ =>
      { balance := 0, unrealizedPnl := 0, marginBalance := 0, availableBalance := 0 }

/-- A trade as returned by `futures_account_trades`. -/
structure RawTrade where
  symbol : String
  side : String
  price : ℚ
  qty : ℚ
  realizedPnl : ℚ
  time : ℕ
  deriving DecidableEq, Repr

/-- A row of the trade-history table built by `fetch_trade_history`. -/
structure Trade where
  symbol : String
  side : String
  price : ℚ
  quantity : ℚ
  pnl : ℚ
  time : ℕ
  deriving DecidableEq, Repr

/-- `app.py` `fetch_trade_history`: one `futures_account_trades` call; on
success each venue trade is mapped to a table row, on a
`BinanceAPIException`/`BinanceRequestException` an error is shown and an
empty DataFrame is returned.  The second component counts upstream calls. -/
def fetchTradeHistory (upstream : ℕ → Except FetchError (List RawTrade)) :
    List Trade × ℕ :=
  match upstream 0 with
  | .ok ts =>
      (ts.map fun t =>
        { symbol := t.symbol, side := t.side, price := t.price
          quantity := t.qty, pnl := t.realizedPnl, time := t.time }, 1)
  | .error _ => ([], 1)

/-- A position as reported inside `futures_account()["positions"]`. -/
structure RawPosition where
  symbol : String
  positionAmt : ℚ
  entryPrice : ℚ
  markPrice : Option ℚ
  unrealizedProfit : ℚ
  deriving DecidableEq, Repr

/-- A row of the positions table built by `fetch_positions`. -/
structure Position where
  symbol : String
  size : ℚ
  entryPrice : ℚ
  markPrice : Option ℚ
  pnl : ℚ
  deriving DecidableEq, Repr

/-- `app.py` `fetch_positions`: venue positions with
`float(pos["positionAmt"]) != 0` are kept and normalized; on a handled
exception an empty DataFrame is returned. -/
def fetchPositions (upstream : Except FetchError (List RawPosition)) : List Position :=
  match upstream with
  | .ok ps =>
      (ps.filter fun p => p.positionAmt ≠ 0).map fun p =>
        { symbol := p.symbol, size := p.positionAmt, entryPrice := p.entryPrice
          markPrice := p.markPrice, pnl := p.unrealizedProfit }
  | .error _ => []

/-- Descending-PNL order used by `nlargest(5, "PNL")`: ties keep the
earlier row first. -/
def pnlDesc (a b : Position) : Prop := b.pnl ≤ a.pnl

/-- Ascending-PNL order used by `nsmallest(5, "PNL")`. -/
def pnlAsc (a b : Position) : Prop := a.pnl ≤ b.pnl

instance : DecidableRel pnlDesc := fun a b => inferInstanceAs (Decidable (b.pnl ≤ a.pnl))

instance : DecidableRel pnlAsc := fun a b => inferInstanceAs (Decidable (a.pnl ≤ b.pnl))

instance : IsTotal Position pnlDesc := ⟨fun a b => le_total b.pnl a.pnl⟩

instance : IsTrans Position pnlDesc := ⟨fun _ _ _ h h₂ => le_trans h₂ h⟩

instance : IsTotal Position pnlAsc := ⟨fun a b => le_total a.pnl b.pnl⟩

instance : IsTrans Position pnlAsc := ⟨fun _ _ _ h h₂ => le_trans h h₂⟩

/-- `app.py` `get_top_positions`: the fetched positions sorted by PNL
descending (resp. ascending) with `keep="first"` tie handling, truncated
to the five largest (`nlargest`) and five smallest (`nsmallest`). -/
def getTopPositions (upstream : Except FetchError (List RawPosition)) :
    List Position × List Position :=
  let ps := fetchPositions upstream
  (List.take 5 (List.insertionSort pnlDesc ps),
   List.take 5 (List.insertionSort pnlAsc ps))

/-- An open order as returned by `futures_get_open_orders`. -/
structure RawOrder where
  symbol : String
  price : ℚ
  origQty : ℚ
  type : String
  side : String
  status : String
  deriving DecidableEq, Repr

/-- A row of the open-orders table built by `fetch_open_orders`. -/
structure Order where
  symbol : String
  price : ℚ
  quantity : ℚ
  type : String
  side : String
  status : String
  deriving DecidableEq, Repr

/-- `app.py` `fetch_open_orders`: one `futures_get_open_orders` call; rows
on success, an empty DataFrame on a handled exception.  The second
component counts upstream calls. -/
def fetchOpenOrders (upstream : ℕ → Except FetchError (List RawOrder)) :
    List Order × ℕ :=
  match upstream 0 with
  | .ok os =>
      (os.map fun o =>
        { symbol := o.symbol, price := o.price, quantity := o.origQty
          type := o.type, side := o.side, status := o.status }, 1)
  | .error _ => ([], 1)

/-- Epoch day of 2025-01-01, the start of `pd.date_range` in
`generate_sample_pnl_data`. -/
def sampleStartDay : ℕ := 20089

/-- `app.py` `generate_sample_pnl_data`: fifteen days 2025-01-01 …
2025-01-15; the `Daily PNL` column is fifteen fresh `random.uniform`
draws; the `Cumulative PNL` column entry at index `i` is the sum of `i`
further fresh draws.  `rand` is the stream of uniform draws in the order
Python produces them (the fifteen daily draws first, then the
`0 + 1 + … + 14` draws of the cumulative column). -/
def generateSamplePnlData (rand : ℕ → ℚ) : List ℕ × List ℚ × List ℚ :=
  ((List.range 15).map fun i => sampleStartDay + i,
   (List.range 15).map fun i => rand i,
   (List.range 15).map fun i =>
     ((List.range i).map fun j => rand (15 + i * (i - 1) / 2 + j)).sum)

/-- A record of the `pnl_analytics` payload consumed by
`performance_analytics`: a date and that day's PNL. -/
structure PnlRecord where
  date : ℕ
  pnl : ℚ
  deriving DecidableEq, Repr

/-- Date order used by `sort_values('Date')`. -/
def dateLe (a b : PnlRecord) : Prop := a.date ≤ b.date

instance : DecidableRel dateLe := fun a b => inferInstanceAs (Decidable (a.date ≤ b.date))

instance : IsTotal PnlRecord dateLe := ⟨fun a b => Nat.le_total a.date b.date⟩

instance : IsTrans PnlRecord dateLe := ⟨fun _ _ _ h h₂ => Nat.le_trans h h₂⟩

/-- `pnl_df.sort_values('Date')`. -/
def sortByDate (l : List PnlRecord) : List PnlRecord :=
  List.insertionSort dateLe l

/-- Running sums with accumulator, the recursion behind `cumsum()`. -/
def cumsumFrom (acc : ℚ) : List ℚ → List ℚ
  | [] => []
  | x :: xs => (acc + x) :: cumsumFrom (acc + x) xs

/-- pandas `Series.cumsum()`. -/
def cumsum (l : List ℚ) : List ℚ := cumsumFrom 0 l

/-- `app2.py` `performance_analytics` lines 183–186: sort the PNL records
by date ascending and take the running sum of the `PNL` column. -/
def cumulativePnl (records : List PnlRecord) : List ℚ :=
  cumsum ((sortByDate records).map fun r => r.pnl)

/-- `pnl_df[pnl_df['PNL'] > 0]['PNL'].sum()`. -/
def totalProfit (records : List PnlRecord) : ℚ :=
  ((records.map fun r => r.pnl).filter fun p => 0 < p).sum

/-- `pnl_df[pnl_df['PNL'] < 0]['PNL'].sum()`. -/
def totalLoss (records : List PnlRecord) : ℚ :=
  ((records.map fun r => r.pnl).filter fun p => p < 0).sum

/-- `app2.py` `performance_analytics` line 203:
`len(pnl_df[pnl_df['PNL'] > 0])/len(pnl_df) if len(pnl_df) > 0 else 0`. -/
def winRate (records : List PnlRecord) : ℚ :=
  if 0 < records.length then
    ((records.filter fun r => 0 < r.pnl).length : ℚ) / records.length
  else 0

/-- The three metrics of `performance_analytics`, computed on the
date-sorted frame. -/
def performanceMetrics (records : List PnlRecord) : ℚ × ℚ × ℚ :=
  let s := sortByDate records
  (totalProfit s, totalLoss s, winRate s)

/-- A pseudo-random-number-generator state: the stream of uniform draws
and a cursor into it. -/
def RngState : Type := (ℕ → ℚ) × ℕ

/-- `performance_analytics` threaded through the process RNG state: the
function reads no randomness and draws nothing, so the state is passed
through untouched. -/
def performanceMetricsS (records : List PnlRecord) (s : RngState) :
    (ℚ × ℚ × ℚ) × RngState :=
  (performanceMetrics records, s)

/-- A position row of the `/futures/positions` payload used by
`render_open_positions`. -/
structure OpenPos where
  symbol : String
  size : ℚ
  entryPrice : ℚ
  deriving DecidableEq, Repr

/-- `app3.py` `render_open_positions` lines 57–59: draw
`np.random.uniform(-0.05, 0.05, len(df))` from the RNG, set
`Current Price = Entry Price * (1 + draw)` and
`Unrealized PNL = (Current Price - Entry Price) * Size`.  Each row of the
result carries the simulated current price and unrealized PNL; the RNG
cursor advances by the number of rows. -/
def renderOpenPositions (ps : List OpenPos) (s : RngState) :
    List (OpenPos × ℚ × ℚ) × RngState :=
  let draws := (List.range ps.length).map fun i => s.1 (s.2 + i)
  ((ps.zip draws).map fun pd =>
     let current := pd.1.entryPrice * (1 + pd.2)
     (pd.1, current, (current - pd.1.entryPrice) * pd.1.size),
   (s.1, s.2 + ps.length))

/-- A trade row of the `/futures/trade-history` payload used by
`render_trade_history`. -/
structure HistTrade where
  symbol : String
  timestamp : ℕ
  realizedPnl : ℚ
  side : String
  deriving DecidableEq, Repr

/-- Milliseconds per calendar day. -/
def msPerDay : ℕ := 86400000

/-- `pd.to_datetime` applied to a bare calendar date: midnight (00:00:00)
of that epoch day, in epoch milliseconds. -/
def midnightMs (day : ℕ) : ℕ := day * msPerDay

/-- The calendar (epoch) day containing an epoch-millisecond instant. -/
def dayOf (ms : ℕ) : ℕ := ms / msPerDay

/-- `app3.py` `render_trade_history` lines 96–98: keep the rows whose
`Time` (the full millisecond timestamp) satisfies
`Time >= pd.to_datetime(start)` and `Time <= pd.to_datetime(end)`. -/
def filterByDateRange (startDay endDay : ℕ) (trades : List HistTrade) :
    List HistTrade :=
  trades.filter fun t =>
    midnightMs startDay ≤ t.timestamp ∧ t.timestamp ≤ midnightMs endDay

/-- Modelled from the spec: the profit-factor computation of the analysis
service (`data['profitFactor']` consumed by `render_analysis` in
`app3.py`; the computing side lives behind the `/futures/analysis`
endpoint and is not among the sources).  Per the spec it is
`sum(positive PNL) / |sum(negative PNL)|` and an explicit "undefined"
marker when there are no losing trades. -/
def profitFactor (pnls : List ℚ) : Option ℚ :=
  let loss := (pnls.filter fun p => p < 0).sum
  if loss = 0 then none
  else some ((pnls.filter fun p => 0 < p).sum / |loss|)

/-! ## Helper lemmas -/

theorem cumsumFrom_eq_map (acc : ℚ) (l : List ℚ) :
    cumsumFrom acc l = (List.range l.length).map fun i => acc + (l.take (i+1)).sum := by
  induction l generalizing acc with
  | nil => simp [cumsumFrom]
  | cons x xs ih =>
      rw [cumsumFrom, ih, List.length_cons, List.range_succ_eq_map, List.map_cons,
        List.map_map]
      simp [Function.comp, List.take_succ_cons, add_assoc]

theorem cumsumFrom_getLastD (l : List ℚ) (acc : ℚ) :
    (cumsumFrom acc l).getLastD acc = acc + l.sum := by
  induction l generalizing acc with
  | nil => simp [cumsumFrom]
  | cons x xs ih =>
      rw [cumsumFrom, List.getLastD_cons, ih, List.sum_cons, add_assoc]

theorem sortByDate_pnl_sum (records : List PnlRecord) :
    ((sortByDate records).map fun r => r.pnl).sum = (records.map fun r => r.pnl).sum :=
  (((List.perm_insertionSort dateLe records).map fun r => r.pnl)).sum_eq

/-! ## Claims -/

/-- C1: `performance_analytics` computes the cumulative-PNL series by
sorting the records by date ascending and taking the running sum, so entry
`i` is the sum of the first `i+1` daily values and the last entry is the
total realized PNL of the whole set.  But `generate_sample_pnl_data` in
`app.py` violates the claimed relationship: its `Cumulative PNL` column is
built from fresh independent draws, so even with every draw equal to `1`
the column differs from the running sum of the `Daily PNL` column. -/
theorem c1_cumulative_running_sum :
    (∀ records : List PnlRecord,
        cumulativePnl records =
          (List.range (sortByDate records).length).map fun i =>
            (((sortByDate records).map fun r => r.pnl).take (i+1)).sum) ∧
    (∀ records : List PnlRecord,
        (cumulativePnl records).getLastD 0 = (records.map fun r => r.pnl).sum) ∧
    (generateSamplePnlData fun _ => 1).2.2 ≠ cumsum (generateSamplePnlData fun _ => 1).2.1 := by
  refine ⟨?_, ?_, ?_⟩
  · intro records
    rw [cumulativePnl, cumsum, cumsumFrom_eq_map]
    simp
  · intro records
    rw [cumulativePnl, cumsum, cumsumFrom_getLastD, zero_add, sortByDate_pnl_sum]
  · intro h
    have h0 := congrArg List.head? h
    simp [generateSamplePnlData, cumsum, cumsumFrom, List.range_succ_eq_map] at h0

/-- C2: the win rate of `performance_analytics` is
`count(PNL > 0) / total records` (records with PNL = 0 count in the
denominator only), it lies in `[0, 1]`, and it is `0` for an empty record
set rather than a division-by-zero error. -/
theorem c2_winRate_bounds :
    winRate [] = 0 ∧
    ∀ records : List PnlRecord,
      0 ≤ winRate records ∧ winRate records ≤ 1 ∧
      (records ≠ [] →
        winRate records =
          ((records.filter fun r => 0 < r.pnl).length : ℚ) / records.length) := by
  refine ⟨rfl, fun records => ?_⟩
  rcases eq_or_ne records [] with rfl | hne
  · exact ⟨le_refl 0, zero_le_one, fun h => absurd rfl h⟩
  · have hlen : 0 < records.length := List.length_pos.mpr hne
    have hrate : winRate records =
        ((records.filter fun r => 0 < r.pnl).length : ℚ) / records.length := by
      rw [winRate, if_pos hlen]
    have hq : (0 : ℚ) < records.length := by exact_mod_cast hlen
    refine ⟨?_, ?_, fun _ => hrate⟩
    · rw [hrate]
      positivity
    · rw [hrate, div_le_one hq]
      exact_mod_cast List.length_filter_le _ records

/-- C2 witness: on two records with PNL `5` and `0`, the zero-PNL record
counts in the denominator but not the numerator, giving win rate `1/2`,
which is within `[0, 1]`. -/
theorem c2_winRate_witness :
    0 ≤ winRate [⟨0, 5⟩, ⟨0, 0⟩] ∧ winRate [⟨0, 5⟩, ⟨0, 0⟩] ≤ 1 ∧
    winRate [⟨0, 5⟩, ⟨0, 0⟩] = 1 / 2 := by
  obtain ⟨h0, h1, h2⟩ := c2_winRate_bounds.2 [⟨0, 5⟩, ⟨0, 0⟩]
  refine ⟨h0, h1, ?_⟩
  rw [h2 (by decide)]
  norm_num [List.filter]

/-- C3: the profit factor (modelled from the spec, since the computation
lives behind the `/futures/analysis` endpoint consumed by
`render_analysis`) is `sum(positive PNL) / |sum(negative PNL)|` whenever
the total losing PNL is nonzero, is the explicit `none` marker — never a
silent zero — when the total losing PNL is zero (in particular whenever
there are no losing trades), and every defined value is a nonnegative
rational, so no NaN can reach the rendered output. -/
theorem c3_profitFactor_marker :
    (∀ pnls : List ℚ, (pnls.filter fun p => p < 0).sum = 0 → profitFactor pnls = none) ∧
    (∀ pnls : List ℚ, (∀ p ∈ pnls, 0 ≤ p) → profitFactor pnls = none) ∧
    (∀ pnls : List ℚ, (pnls.filter fun p => p < 0).sum ≠ 0 →
        profitFactor pnls =
          some ((pnls.filter fun p => 0 < p).sum / |(pnls.filter fun p => p < 0).sum|)) ∧
    (∀ pnls : List ℚ, ∀ q : ℚ, profitFactor pnls = some q → 0 ≤ q) := by
  refine ⟨fun pnls h => ?_, fun pnls h => ?_, fun pnls h => ?_, fun pnls q h => ?_⟩
  · rw [profitFactor, if_pos h]
  · have : (pnls.filter fun p => p < 0) = [] := by
      rw [List.filter_eq_nil_iff]
      intro p hp
      simpa using not_lt.mpr (h p hp)
    rw [profitFactor, this]
    simp
  · rw [profitFactor, if_neg h]
  · rw [profitFactor] at h
    by_cases hz : (pnls.filter fun p => p < 0).sum = 0
    · rw [if_pos hz] at h
      exact absurd h (by simp)
    · rw [if_neg hz] at h
      have hq := Option.some_injective _ h.symm
      rw [hq]
      apply div_nonneg
      · apply List.sum_nonneg
        intro p hp
        have hp2 := (List.mem_filter.mp hp).2
        simp only [decide_eq_true_eq] at hp2
        exact le_of_lt hp2
      · exact abs_nonneg _

/-- C3 witness: a set with only winning trades has total losing PNL `0`
and profit factor `none`; a set with a loss of `-3` and gains `10`, `5`
has profit factor `15/3 = 5`. -/
theorem c3_profitFactor_witness :
    profitFactor [3, 4] = none ∧ profitFactor [10, -3, 5] = some 5 := by
  constructor
  · exact c3_profitFactor_marker.2.1 [3, 4] (by decide)
  · have h := c3_profitFactor_marker.2.2.1 [10, -3, 5] (by norm_num [List.filter])
    rw [h]
    norm_num [List.filter]

/-- C4 counterexample: with an upstream that fails every attempt with a
transient network error, `fetch_data` performs exactly one upstream call
— not the at-least-two calls a retried transient failure would require —
so transient errors are not retried before being surfaced. -/
theorem c4_no_retry_counterexample :
    (fetchData fun _ =>
        (Except.error FetchError.transientNetworkError : Except FetchError (List RawTrade))).2
      = 1 ∧
    ¬ 2 ≤ (fetchData fun _ =>
        (Except.error FetchError.transientNetworkError : Except FetchError (List RawTrade))).2 := by
  refine ⟨rfl, ?_⟩
  intro h
  simp [fetchData] at h

/-- C4 (amended): every fetch performs exactly one upstream call whatever
the outcome; transient network errors, like auth and venue errors, are
surfaced immediately with no retry and no backoff — a fetch whose first
upstream outcome is an error returns its fallback within that one call. -/
theorem c4_single_upstream_call :
    (∀ u : ℕ → Except FetchError (List RawTrade), (fetchTradeHistory u).2 = 1) ∧
    (∀ u : ℕ → Except FetchError (List PnlRecord), (fetchData u).2 = 1) ∧
    (∀ (u : ℕ → Except FetchError (List PnlRecord)) (e : FetchError),
        u 0 = Except.error e → (fetchData u).1 = none) := by
  refine ⟨fun u => ?_, fun u => ?_, fun u e he => ?_⟩
  · cases h : u 0 <;> simp [fetchTradeHistory, h]
  · cases h : u 0 <;> simp [fetchData, h]
  · simp [fetchData, he]

/-- C4 witness: `fetch_data` against an upstream that answers every call
with `AuthError` returns `none` after its single upstream call. -/
theorem c4_single_upstream_call_witness :
    (fetchData fun _ =>
        (Except.error FetchError.authError : Except FetchError (List PnlRecord))).1 = none :=
  c4_single_upstream_call.2.2 (fun _ => Except.error FetchError.authError)
    FetchError.authError rfl

/-- C5 counterexample: on a failing upstream, `fetch_account_summary`
returns exactly the silently zero-defaulted record the claim rules out
(and hence no error value reaches the caller). -/
theorem c5_zero_default_counterexample :
    fetchAccountSummary (Except.error FetchError.transientNetworkError) =
      { balance := 0, unrealizedPnl := 0, marginBalance := 0, availableBalance := 0 } :=
  rfl

/-- C5 (amended): on every fetch failure the error is swallowed rather
than propagated: `fetch_account_summary` shows a warning and returns a
zero-defaulted account summary, and `fetch_data` shows a warning and
returns `None`. -/
theorem c5_error_swallowed :
    ∀ e : FetchError,
      fetchAccountSummary (Except.error e) =
        { balance := 0, unrealizedPnl := 0, marginBalance := 0, availableBalance := 0 } ∧
      (fetchData fun _ => (Except.error e : Except FetchError (List PnlRecord))).1 = none := by
  intro e
  exact ⟨rfl, rfl⟩

/-- C6: `render_trade_history` compares the full millisecond timestamp
against `pd.to_datetime` of the two bare dates, i.e. midnight of each.
A trade at noon of 2025-01-05 (epoch day 20093, timestamp 1736078400000)
falls on the requested day, yet the range [2025-01-05, 2025-01-05] filters
it out; only a trade at exactly midnight of that day passes. -/
theorem c6_midnight_filter_eval :
    dayOf 1736078400000 = 20093 ∧
    filterByDateRange 20093 20093 [⟨"BTCUSDT", 1736078400000, 5, "BUY"⟩] = [] ∧
    filterByDateRange 20093 20093 [⟨"BTCUSDT", 1736035200000, 5, "BUY"⟩] =
      [⟨"BTCUSDT", 1736035200000, 5, "BUY"⟩] := by
  refine ⟨rfl, by decide, by decide⟩

/-- C7 counterexample: with positions B (PNL 5), A (PNL 5), C (PNL −1) in
that upstream order, the top winner produced by `get_top_positions` is B —
`nlargest` keeps the earlier row on ties — whereas a lexical tie-break
would deterministically give A. -/
theorem c7_tie_break_counterexample :
    ((getTopPositions (Except.ok
        [⟨"B", 1, 1, none, 5⟩, ⟨"A", 1, 1, none, 5⟩, ⟨"C", 1, 1, none, -1⟩])).1.head?.map
      Position.symbol = some "B") ∧
    (some "B" : Option String) ≠ some "A" := by
  exact ⟨by decide, by decide⟩

/-- C7 (amended): the top winners (resp. losers) of `get_top_positions`
are the first rows of a stable sort by PNL descending (resp. ascending)
whose ties keep the original upstream order, truncated at the available
record count: the result is sorted, its length is `min 5 count`, and every
returned position is one of the fetched positions. -/
theorem c7_top_positions_sorted_capped :
    ∀ raw : List RawPosition,
      (getTopPositions (Except.ok raw)).1.length =
        min 5 (fetchPositions (Except.ok raw)).length ∧
      List.Sorted pnlDesc (getTopPositions (Except.ok raw)).1 ∧
      (getTopPositions (Except.ok raw)).2.length =
        min 5 (fetchPositions (Except.ok raw)).length ∧
      List.Sorted pnlAsc (getTopPositions (Except.ok raw)).2 ∧
      ∀ p : Position,
        p ∈ (getTopPositions (Except.ok raw)).1 → p ∈ fetchPositions (Except.ok raw) := by
  intro raw
  refine ⟨?_, ?_, ?_, ?_, ?_⟩
  · rw [getTopPositions, List.length_take,
      (List.perm_insertionSort pnlDesc (fetchPositions (Except.ok raw))).length_eq]
  · exact (List.sorted_insertionSort pnlDesc _).sublist (List.take_sublist _ _)
  · rw [getTopPositions, List.length_take,
      (List.perm_insertionSort pnlAsc (fetchPositions (Except.ok raw))).length_eq]
  · exact (List.sorted_insertionSort pnlAsc _).sublist (List.take_sublist _ _)
  · intro p hp
    exact (List.perm_insertionSort pnlDesc _).mem_iff.mp
      (List.mem_of_mem_take hp)

/-- C7 witness: on the single fetched position B, the returned top winner
B is indeed one of the fetched positions. -/
theorem c7_top_positions_witness :
    (⟨"B", 1, 1, none, 5⟩ : Position) ∈ fetchPositions (Except.ok [⟨"B", 1, 1, none, 5⟩]) :=
  (c7_top_positions_sorted_capped [⟨"B", 1, 1, none, 5⟩]).2.2.2.2
    ⟨"B", 1, 1, none, 5⟩ (by decide)

/-- C8: every position in the record set returned by `fetch_positions`
has nonzero signed size — zero-size venue positions are dropped by the
`float(pos["positionAmt"]) != 0` normalization filter, and the failure
branch returns no positions at all. -/
theorem c8_positions_nonzero_size :
    ∀ (u : Except FetchError (List RawPosition)) (p : Position),
      p ∈ fetchPositions u → p.size ≠ 0 := by
  intro u p hp
  cases u with
  | error e => simp [fetchPositions] at hp
  | ok ps =>
      simp only [fetchPositions, List.mem_map] at hp
      obtain ⟨q, hq, rfl⟩ := hp
      have hq2 := List.of_mem_filter hq
      simpa using hq2

/-- C8 witness: the venue position X with size 2 survives normalization
and its size is nonzero. -/
theorem c8_positions_nonzero_size_witness :
    (⟨"X", 2, 1, none, 0⟩ : Position).size ≠ 0 :=
  c8_positions_nonzero_size (Except.ok [⟨"X", 2, 1, none, 0⟩])
    ⟨"X", 2, 1, none, 0⟩ (by decide)

/-- C9 counterexample: `render_open_positions` simulates the current
price with fresh `np.random.uniform` draws, so two invocations on the
same single position with different random states (all-zero draws vs
all-`1/100` draws) produce different rows — the computation is not a
deterministic function of the records alone. -/
theorem c9_random_dependence_counterexample :
    (renderOpenPositions [⟨"X", 1, 100⟩] ((fun _ => 0), 0)).1 ≠
    (renderOpenPositions [⟨"X", 1, 100⟩] ((fun _ => 1/100), 0)).1 := by
  intro h
  have h0 := congrArg List.head? h
  simp [renderOpenPositions, List.range_succ_eq_map] at h0

/-- C9 (amended): the metrics of `performance_analytics` (total profit,
total loss, win rate) are pure deterministic functions of the records —
their value does not depend on the random state and the state is passed
through unchanged — whereas `render_open_positions` additionally depends
on the random draws, so only its outputs may vary between invocations on
the same records. -/
theorem c9_metrics_pure :
    ∀ (records : List PnlRecord) (s₁ s₂ : RngState),
      (performanceMetricsS records s₁).1 = (performanceMetricsS records s₂).1 ∧
      (performanceMetricsS records s₁).2 = s₁ := by
  intro records s₁ s₂
  exact ⟨rfl, rfl⟩

/-- C10 counterexample: on a handled request exception, `fetch_data` in
`app2.py` returns `None` — a value, but not the empty record set the
claim states. -/
theorem c10_none_fallback_counterexample :
    (fetchData fun _ =>
        (Except.error FetchError.venueError : Except FetchError (List HistTrade))).1 = none ∧
    (none : Option (List HistTrade)) ≠ some [] := by
  exact ⟨rfl, by simp⟩

/-- C10 (amended): when the upstream call fails with a handled exception,
no fetch propagates it; each returns the fallback of its declared shape —
the empty record set for `fetch_trade_history` and `fetch_open_orders`,
`None` for `fetch_data`. -/
theorem c10_handled_errors_total :
    ∀ e : FetchError,
      (fetchTradeHistory fun _ => Except.error e).1 = [] ∧
      (fetchOpenOrders fun _ => Except.error e).1 = [] ∧
      (fetchData fun _ => (Except.error e : Except FetchError (List HistTrade))).1 = none := by
  intro e
  exact ⟨rfl, rfl, rfl⟩

end Dashboard
